import Mathlib

/-!
# Patient Report Generator — verification of the coordinate / compositing core

A shallow embedding of the Python sources of the Automated Report
Generation System (modules `src/utils.py`, `src/template_coords.py`,
`src/report_generator.py`, `src/template_editor.py`, `src/app.py`),
together with theorems settling the specification claims.

Machine reals of the source are modelled as `ℚ`; Python strings as
`String` / `List Char`; fallible external effects (PDF opening, page
geometry reading, file existence, image decoding, file writing) as an
explicit environment record consulted exactly where the source performs
the corresponding call.
-/

/-! ## `src/utils.py` -/

/-- The ASCII whitespace characters stripped by Python `str.strip()`
(space, tab, newline, carriage return, vertical tab, form feed). -/
def pyWhitespace (c : Char) : Bool :=
  c = ' ' || c = '\t' || c = '\n' || c = '\r' || c = Char.ofNat 11 || c = Char.ofNat 12

/-- Python `s.strip()`: drop leading and trailing whitespace. -/
def pyStrip (l : List Char) : List Char :=
  ((l.dropWhile pyWhitespace).reverse.dropWhile pyWhitespace).reverse

/-- The character class kept by `re.sub(r"[^A-Za-z0-9_\-]", "", s)`
in `slugify_filename` (utils.py line 23). -/
def slugAllowed (c : Char) : Bool :=
  ('A' ≤ c && c ≤ 'Z') || ('a' ≤ c && c ≤ 'z') || ('0' ≤ c && c ≤ '9') || c = '_' || c = '-'

/-- Core of `slugify_filename` (utils.py lines 9-24) on character lists:
if the stripped input is empty return the fallback; otherwise strip,
replace spaces by underscores, delete characters outside
`[A-Za-z0-9_-]`, and fall back if the result is empty. -/
def slugifyList (s : List Char) (fallback : List Char) : List Char :=
  if pyStrip s = [] then fallback
  else if ((pyStrip s).map (fun c => if c = ' ' then '_' else c)).filter slugAllowed
      = [] then fallback
  else ((pyStrip s).map (fun c => if c = ' ' then '_' else c)).filter slugAllowed

/-- Function `slugify_filename` (utils.py lines 9-24). The `isinstance` guard is
vacuous here because the embedding is typed. -/
def slugify_filename (s : String) (fallback : String := "report") : String :=
  ⟨slugifyList s.data fallback.data⟩

/-- Python builtin `min` on two rationals. -/
def pymin (a b : ℚ) : ℚ := if a ≤ b then a else b

/-- Python builtin `max` on two rationals. -/
def pymax (a b : ℚ) : ℚ := if a ≤ b then b else a

theorem pymin_eq_min (a b : ℚ) : pymin a b = min a b := (min_def a b).symm

theorem pymax_eq_max (a b : ℚ) : pymax a b = max a b := (max_def a b).symm

/-- Function `to_pdf_y` (utils.py lines 27-38):
`max(0, min(page_height, page_height - y_from_top))`. -/
def to_pdf_y (y_from_top page_height : ℚ) : ℚ :=
  pymax 0 (pymin page_height (page_height - y_from_top))

/-! ## `src/template_coords.py` -/

/-- Python 3 built-in `round` to an integer: round half to even. -/
def pyRound (q : ℚ) : ℤ :=
  if q - ⌊q⌋ < 1 / 2 then ⌊q⌋
  else if 1 / 2 < q - ⌊q⌋ then ⌊q⌋ + 1
  else if ⌊q⌋ % 2 = 0 then ⌊q⌋ else ⌊q⌋ + 1

/-- Body of the dict comprehension in `mosabbir_default_coords`
(template_coords.py line 37): one ratio pair converted to points,
`(int(round(rx * page_width)), int(round(ry * page_height)))`. -/
def ratiosToPoints (rx ry page_width page_height : ℚ) : ℤ × ℤ :=
  (pyRound (rx * page_width), pyRound (ry * page_height))

/-- The closed set of field identifiers (template_coords.py lines 22-34). -/
inductive FieldId where
  | bed_id | name | age | gender | attendees | image
  | date_of_diagnosis | cancer_type | cancer_stage | cancer_grade
  deriving DecidableEq, Repr

/-- The ratio table of `mosabbir_default_coords` (template_coords.py
lines 22-34). -/
def mosabbirRatios : FieldId → ℚ × ℚ
  | .bed_id            => (0.390070922, 0.119798235)
  | .name              => (0.407801418, 0.233291299)
  | .age               => (0.407801418, 0.271122320)
  | .gender            => (0.407801418, 0.308953342)
  | .attendees         => (0.407801418, 0.346784363)
  | .image             => (0.664893617, 0.208070618)
  | .date_of_diagnosis => (0.425531915, 0.706179067)
  | .cancer_type       => (0.425531915, 0.744010088)
  | .cancer_stage      => (0.425531915, 0.781841110)
  | .cancer_grade      => (0.425531915, 0.819672131)

/-- Function `mosabbir_default_coords` (template_coords.py lines 7-39). -/
def mosabbir_default_coords (page_width page_height : ℚ) (k : FieldId) : ℤ × ℤ :=
  ratiosToPoints (mosabbirRatios k).1 (mosabbirRatios k).2 page_width page_height

/-! ## Data model for the compositor and batch driver

`src/report_generator.py` and the batch loop of `src/app.py`
(`SimplePatientReportGenerator.generate_reports`). External effects are
an explicit environment: each field corresponds to one fallible call of
the source and is consulted exactly where that call happens. -/

/-- A field-position mapping: the `field_coordinates` dict. Coordinates
are PDF points, top-left origin. Fields absent from the dict map to
`none` (the source guards each access with `key in self.field_coordinates`). -/
def Mapping : Type := FieldId → Option (ℚ × ℚ)

/-- One row of the CSV after `pd.read_csv(...).fillna("")` and `str(...)`
conversion: every consulted column as a string. The `bed_id` column
models a bed_id-like value present in the data; the drawing code never
reads it (bed numbering comes from the loop counter instead). -/
structure PatientRecord where
  name : String
  age : String
  gender : String
  attendees : String
  date_of_diagnosis : String
  cancer_type : String
  cancer_stage : String
  cancer_grade : String
  image_path : String
  bed_id : String
  deriving DecidableEq, Repr

/-- One ReportLab canvas call, in issue order. -/
inductive DrawOp where
  /-- call `canvas.setFont(font, size)` -/
  | setFont (font : String) (size : ℚ)
  /-- call `canvas.drawString(x, y, txt)` -/
  | text (x y : ℚ) (txt : String)
  /-- call `canvas.drawRightString(x, y, txt)` -/
  | textRight (x y : ℚ) (txt : String)
  /-- call `canvas.drawImage(path, x, y, width, height, ...)` (the constant
  `preserveAspectRatio=True, mask='auto'` keyword arguments carry no
  per-record information and are not recorded) -/
  | image (path : String) (x y width height : ℚ)
  deriving DecidableEq, Repr

/-- Results of the external calls made while processing one batch. -/
structure Env where
  /-- whether `PdfReader(self.template_path)` succeeds -/
  templateOpen : Bool
  /-- result of `pages[0]` / `mediabox.width` / `mediabox.height`:
  `none` models an exception while reading the page geometry -/
  templateGeom : Option (ℚ × ℚ)
  /-- result of `os.path.exists(path)` -/
  fileExists : String → Bool
  /-- result of `PIL.Image.open(path)` followed by `.size`: the intrinsic
  `(width, height)`, or the exception text -/
  imageLoad : String → Except String (ℚ × ℚ)
  /-- whether `open(output_path, "wb")` / `writer.write` succeeds -/
  writeOk : String → Bool
  /-- value of `datetime.datetime.now().strftime("%Y-%m-%d %H:%M:%S")` -/
  now : String

/-- A generated report: the output path and the overlay content merged
onto the template page. -/
structure Report where
  output_path : String
  ops : List DrawOp
  deriving DecidableEq, Repr

/-- Model of `os.path.normpath(os.path.join(a, b))` for a plain relative
component `b` on a POSIX system. -/
def joinPath (a b : String) : String := a ++ "/" ++ b

/-- Python `f"{n:02d}"` for a natural `n`: decimal digits of `n`,
left-padded with zeros to width at least 2. -/
def format02d (n : ℕ) : String :=
  let s := Nat.repr n
  ⟨List.replicate (2 - s.length) '0' ++ s.data⟩

/-- The image-size computation of `_draw_patient_image`
(report_generator.py lines 132-137): scale so the longer side equals
`1.8 * 72.0` points, preserving aspect ratio. -/
def scaleImageSize (iw ih : ℚ) : ℚ × ℚ :=
  let max_side : ℚ := 1.8 * 72.0
  if iw ≥ ih then (max_side, (ih / iw) * max_side)
  else ((iw / ih) * max_side, max_side)

/-- The inner `draw_text` helper of `_draw_text_fields`
(report_generator.py lines 90-95): skip fields absent from the mapping,
clamp x to `[0, page_width]`, flip y, draw. -/
def draw_text (fc : Mapping) (page_width page_height : ℚ)
    (key : FieldId) (txt : String) : List DrawOp :=
  match fc key with
  | none => []
  | some (x_top, y_top) =>
    [.text (pymax 0 (pymin page_width x_top)) (to_pdf_y y_top page_height) txt]

/-- Method `ReportGenerator._draw_text_fields` (report_generator.py lines
88-106): the nine text fields in source order; `bed_id` is rendered
from the loop counter as `f"{bed_id:02d}"`, never from the record. -/
def draw_text_fields (fc : Mapping) (pd : PatientRecord) (bed_id : ℕ)
    (page_width page_height : ℚ) : List DrawOp :=
  draw_text fc page_width page_height .bed_id (format02d bed_id)
  ++ draw_text fc page_width page_height .name pd.name
  ++ draw_text fc page_width page_height .age pd.age
  ++ draw_text fc page_width page_height .gender pd.gender
  ++ draw_text fc page_width page_height .attendees pd.attendees
  ++ draw_text fc page_width page_height .date_of_diagnosis pd.date_of_diagnosis
  ++ draw_text fc page_width page_height .cancer_type pd.cancer_type
  ++ draw_text fc page_width page_height .cancer_stage pd.cancer_stage
  ++ draw_text fc page_width page_height .cancer_grade pd.cancer_grade

/-- Method `ReportGenerator._draw_image_placeholder` (report_generator.py
lines 147-151). -/
def draw_image_placeholder (x y : ℚ) (message : String) : List DrawOp :=
  [.setFont "Helvetica" 9, .text x y message, .setFont "Helvetica" 12]

/-- Method `ReportGenerator._draw_patient_image` (report_generator.py lines
108-145): no-op when `image` is not positioned; placeholder when the
path is blank, nonexistent, or loading fails; otherwise the scaled
image anchored with its top-left corner at the field position. -/
def draw_patient_image (env : Env) (fc : Mapping) (pd : PatientRecord)
    (csv_dir : String) (page_width page_height : ℚ) : List DrawOp :=
  match fc .image with
  | none => []
  | some (img_x_top, img_y_top) =>
    let img_x := pymax 0 (pymin page_width img_x_top)
    let img_y := to_pdf_y img_y_top page_height
    let rel : String := ⟨pyStrip pd.image_path.data⟩
    if rel = "" then draw_image_placeholder img_x img_y "No image path"
    else
      let img_path := joinPath csv_dir rel
      if env.fileExists img_path = false then
        draw_image_placeholder img_x img_y "Image not found"
      else
        match env.imageLoad img_path with
        | .error e => draw_image_placeholder img_x img_y ("Image Error: " ++ e)
        | .ok (iw, ih) =>
          let wh := scaleImageSize iw ih
          [.image img_path img_x (img_y - wh.2) wh.1 wh.2]

/-- Method `ReportGenerator._add_timestamp` (report_generator.py lines 153-157). -/
def add_timestamp (env : Env) (page_width : ℚ) : List DrawOp :=
  [.setFont "Helvetica" 8,
   .textRight (page_width - 20) 15 ("Generated: " ++ env.now)]

/-- Method `ReportGenerator.create_patient_report` (report_generator.py lines
36-86). The template is opened and its geometry read on every call; a
failure of either aborts this record (there is no geometry fallback
here). On success the overlay is drawn, merged and written to
`output_dir/<slug>_report.pdf`. -/
def create_patient_report (env : Env) (fc : Mapping) (pd : PatientRecord)
    (csv_dir : String) (bed_id : ℕ) (output_dir : String := "reports") :
    Except String Report :=
  let base_name := slugify_filename pd.name
  let output_path := joinPath output_dir (base_name ++ "_report.pdf")
  if env.templateOpen = false then
    .error "could not open template"
  else
    match env.templateGeom with
    | none => .error "could not read template page geometry"
    | some (page_width, page_height) =>
      let ops :=
        [DrawOp.setFont "Helvetica" 12]
        ++ draw_text_fields fc pd bed_id page_width page_height
        ++ draw_patient_image env fc pd csv_dir page_width page_height
        ++ add_timestamp env page_width
      if env.writeOk output_path then .ok ⟨output_path, ops⟩
      else .error "could not write output file"

/-- Method `TemplateFieldEditor._read_template_size` (template_editor.py lines
67-74): the whole read — `PdfReader` open, `pages[0]`, mediabox floats
— sits inside one `try`; any failure yields the Letter fallback
`(612.0, 792.0)`. -/
def read_template_size (env : Env) : ℚ × ℚ :=
  if env.templateOpen then
    match env.templateGeom with
    | some wh => wh
    | none => (612.0, 792.0)
  else (612.0, 792.0)

/-- Whether an `Except` result is a success. -/
def exceptOk {ε α : Type} : Except ε α → Bool
  | .ok _ => true
  | .error _ => false

/-- The record loop of `SimplePatientReportGenerator.generate_reports`
(app.py lines 245-255): records in input order, `bed_id = i + 1`
(1-based), each `create_patient_report` call wrapped in its own
`try/except` so a failed record is recorded and the loop continues. -/
def generateLoop (env : Env) (fc : Mapping) (csv_dir : String) :
    ℕ → List PatientRecord → List (Except String Report)
  | _, [] => []
  | i, row :: rest =>
    create_patient_report env fc row csv_dir (i + 1)
      :: generateLoop env fc csv_dir (i + 1) rest

/-- Method `SimplePatientReportGenerator.generate_reports` (app.py lines
226-265), effect-free core: returns `(ok, total, per-record results)`.
`ok` counts records whose `create_patient_report` call succeeded;
`total = len(df)`. -/
def generate_reports (env : Env) (fc : Mapping)
    (records : List PatientRecord) (csv_dir : String) :
    ℕ × ℕ × List (Except String Report) :=
  let results := generateLoop env fc csv_dir 0 records
  ((results.filter exceptOk).length, records.length, results)

/-- Output files produced by a batch run: the paths of the successfully
written reports, in order. -/
def writtenFiles (results : List (Except String Report)) : List String :=
  results.filterMap fun r =>
    match r with
    | .ok rep => some rep.output_path
    | .error _ => none

/-- The record loop under Python reference semantics for the shared
`field_coordinates` dict: `ReportGenerator.__init__`
(report_generator.py line 34) stores the caller's dict itself
(`self.field_coordinates = field_coordinates`, aliasing — no copy), so
every per-record draw reads the dict's contents at that moment.
`muts i = some m` models a concurrent writer replacing the dict's
contents with `m` just before record `i` is processed. -/
def generateLoopLive (env : Env) (csv_dir : String)
    (muts : ℕ → Option Mapping) :
    Mapping → ℕ → List PatientRecord → List (Except String Report)
  | _, _, [] => []
  | m, i, row :: rest =>
    let mLive := (muts i).getD m
    create_patient_report env mLive row csv_dir (i + 1)
      :: generateLoopLive env csv_dir muts mLive (i + 1) rest

/-- The contents of the shared dict when record `k` (0-based, counting
from loop position `i`) is processed, under the mutation schedule
`muts`. -/
def liveMappingAt (muts : ℕ → Option Mapping) :
    Mapping → ℕ → ℕ → Mapping
  | m, i, 0 => (muts i).getD m
  | m, i, k + 1 => liveMappingAt muts ((muts i).getD m) (i + 1) k

/-! ## Scratch checks -/

example : slugify_filename "John Doe" = "John_Doe" := by decide
example : slugify_filename "" = "report" := by decide
example : slugify_filename "***" = "report" := by decide
example : slugify_filename "a/b\\c" = "abc" := by decide
example : pyRound (3 / 5) = 1 := by norm_num [pyRound]
example : ratiosToPoints 1 1 (3 / 5) (3 / 5) = (1, 1) := by
  norm_num [ratiosToPoints, pyRound]
example : to_pdf_y (to_pdf_y 3 10) 10 = 3 := by norm_num [to_pdf_y, pymin, pymax]
example : List.dropWhile pyWhitespace ['a'] = ['a'] := by
  simp [List.dropWhile_cons]
  decide
example (p : Char → Bool) (l : List Char) (h : ∀ a ∈ l, p a) : l.filter p = l :=
  List.filter_eq_self.mpr h
example : format02d 7 = "07" := by decide
example : format02d 12 = "12" := by decide
example : format02d 120 = "120" := by decide
example : scaleImageSize 400 200 = (1296 / 10, 648 / 10) := by
  norm_num [scaleImageSize]

/-! ## Helper lemmas -/

theorem pyRound_nonneg {q : ℚ} (h : 0 ≤ q) : 0 ≤ pyRound q := by
  have hf : (0 : ℤ) ≤ ⌊q⌋ := Int.floor_nonneg.mpr h
  unfold pyRound
  split_ifs <;> omega

theorem pyRound_le_int {q : ℚ} {n : ℤ} (h : q ≤ (n : ℚ)) : pyRound q ≤ n := by
  have hfl : ⌊q⌋ ≤ n := by
    have h2 := Int.floor_mono h
    rwa [Int.floor_intCast] at h2
  have hstep : (⌊q⌋ : ℚ) < q → ⌊q⌋ + 1 ≤ n := by
    intro hlt
    have h3 : (⌊q⌋ : ℚ) < (n : ℚ) := lt_of_lt_of_le hlt h
    have h4 : ⌊q⌋ < n := by exact_mod_cast h3
    omega
  unfold pyRound
  split_ifs with h1 h2 h3
  · exact hfl
  · exact hstep (by linarith)
  · exact hfl
  · exact hstep (by linarith)

/-- Function `to_pdf_y` is the plain flip `H - z` on inputs already inside the
page. -/
theorem to_pdf_y_eq_flip {z H : ℚ} (hz0 : 0 ≤ z) (hz1 : z ≤ H) :
    to_pdf_y z H = H - z := by
  unfold to_pdf_y pymin pymax
  have e : (if H ≤ H - z then H else H - z) = H - z := by
    split_ifs with h
    · linarith
    · rfl
  rw [e, if_pos (by linarith)]

theorem slugAllowed_of_ws {c : Char} (h : pyWhitespace c = true) :
    slugAllowed c = false := by
  unfold pyWhitespace at h
  simp only [Bool.or_eq_true, decide_eq_true_eq] at h
  rcases h with ((((h | h) | h) | h) | h) | h <;> subst h <;> decide

theorem ws_false_of_allowed {c : Char} (h : slugAllowed c = true) :
    pyWhitespace c = false := by
  cases hw : pyWhitespace c
  · rfl
  · rw [slugAllowed_of_ws hw] at h
    exact absurd h (by decide)

theorem ne_space_of_allowed {c : Char} (h : slugAllowed c = true) : c ≠ ' ' := by
  intro he
  subst he
  exact absurd h (by decide)

theorem dropWhile_eq_self_of_all {p : Char → Bool} {l : List Char}
    (h : ∀ x ∈ l, p x = false) : l.dropWhile p = l := by
  cases l with
  | nil => rfl
  | cons a t => simp [List.dropWhile_cons, h a (List.mem_cons_self a t)]

theorem pyStrip_eq_self_of_all {l : List Char}
    (h : ∀ x ∈ l, pyWhitespace x = false) : pyStrip l = l := by
  unfold pyStrip
  rw [dropWhile_eq_self_of_all h,
    dropWhile_eq_self_of_all (fun x hx => h x (List.mem_reverse.mp hx)),
    List.reverse_reverse]

theorem map_eq_self_of_fix {f : Char → Char} {l : List Char}
    (h : ∀ x ∈ l, f x = x) : l.map f = l := by
  induction l with
  | nil => rfl
  | cons a t ih =>
    rw [List.map_cons, h a (List.mem_cons_self a t),
      ih fun x hx => h x (List.mem_cons_of_mem a hx)]

theorem string_length_data (s : String) : s.length = s.data.length := by
  cases s
  rfl

/-- List-level idempotence of the slugifier with the default fallback. -/
theorem slugifyList_idem (l : List Char) :
    slugifyList (slugifyList l ("report".data)) ("report".data)
      = slugifyList l ("report".data) := by
  have hrpt : slugifyList ("report".data) ("report".data) = "report".data := by decide
  by_cases h1 : pyStrip l = []
  · have e : slugifyList l ("report".data) = "report".data := by
      rw [slugifyList, if_pos h1]
    rw [e, hrpt]
  · by_cases h2 :
      ((pyStrip l).map (fun c => if c = ' ' then '_' else c)).filter slugAllowed = []
    · have e : slugifyList l ("report".data) = "report".data := by
        rw [slugifyList, if_neg h1, if_pos h2]
      rw [e, hrpt]
    · have e : slugifyList l ("report".data)
          = ((pyStrip l).map (fun c => if c = ' ' then '_' else c)).filter slugAllowed := by
        rw [slugifyList, if_neg h1, if_neg h2]
      rw [e]
      set u := ((pyStrip l).map (fun c => if c = ' ' then '_' else c)).filter slugAllowed
        with hu
      have hall : ∀ x ∈ u, slugAllowed x = true := by
        intro x hx
        rw [hu] at hx
        exact List.of_mem_filter hx
      have hstrip : pyStrip u = u :=
        pyStrip_eq_self_of_all fun x hx => ws_false_of_allowed (hall x hx)
      have hmap : u.map (fun c => if c = ' ' then '_' else c) = u :=
        map_eq_self_of_fix fun x hx => if_neg (ne_space_of_allowed (hall x hx))
      have hfil : u.filter slugAllowed = u := List.filter_eq_self.mpr hall
      rw [slugifyList, if_neg (by rw [hstrip]; exact h2), hstrip, hmap, hfil,
        if_neg h2]

/-! ## Claims -/

/-- **C3** (counterexample). The claim quantifies over every page size
`W > 0`: at the ratio pair `(1, 1)` and page size `W = H = 3/5` of a
point, the conversion gives `x = round(1 * (3/5)) = 1 > 3/5 = W`, so
`x ≤ W` fails. -/
theorem C3_ratio_bounds_counterexample :
    ratiosToPoints 1 1 (3 / 5) (3 / 5) = (1, 1) ∧
    ¬ (((ratiosToPoints 1 1 (3 / 5) (3 / 5)).1 : ℚ) ≤ 3 / 5) := by
  have h : ratiosToPoints 1 1 (3 / 5) (3 / 5) = (1, 1) := by
    norm_num [ratiosToPoints, pyRound]
  refine ⟨h, ?_⟩
  rw [h]
  norm_num

/-- **C3** (amended): for every ratio pair `(rx, ry)` in `[0,1]×[0,1]`
and every page size `(W, H)` that is a whole number of points with
`W > 0`, `H > 0`, the ratio-to-points conversion
`(round(rx*W), round(ry*H))` satisfies `0 ≤ x ≤ W` and `0 ≤ y ≤ H`.
(For fractional page sizes rounding can exceed the page by up to half a
point, as the counterexample shows.) -/
theorem C3_ratio_bounds_amended (rx ry : ℚ) (W H : ℤ)
    (hrx0 : 0 ≤ rx) (hrx1 : rx ≤ 1) (hry0 : 0 ≤ ry) (hry1 : ry ≤ 1)
    (hW : 0 < W) (hH : 0 < H) :
    0 ≤ (ratiosToPoints rx ry (W : ℚ) (H : ℚ)).1 ∧
    (ratiosToPoints rx ry (W : ℚ) (H : ℚ)).1 ≤ W ∧
    0 ≤ (ratiosToPoints rx ry (W : ℚ) (H : ℚ)).2 ∧
    (ratiosToPoints rx ry (W : ℚ) (H : ℚ)).2 ≤ H := by
  have hWQ : (0 : ℚ) ≤ (W : ℚ) := by exact_mod_cast hW.le
  have hHQ : (0 : ℚ) ≤ (H : ℚ) := by exact_mod_cast hH.le
  refine ⟨pyRound_nonneg (mul_nonneg hrx0 hWQ),
    pyRound_le_int ?_,
    pyRound_nonneg (mul_nonneg hry0 hHQ),
    pyRound_le_int ?_⟩
  · calc rx * (W : ℚ) ≤ 1 * (W : ℚ) := mul_le_mul_of_nonneg_right hrx1 hWQ
      _ = (W : ℚ) := one_mul _
  · calc ry * (H : ℚ) ≤ 1 * (H : ℚ) := mul_le_mul_of_nonneg_right hry1 hHQ
      _ = (H : ℚ) := one_mul _

/-- Witness for the amended C3 at ratios `(1/2, 1/2)` and page size
`612 × 792`. -/
theorem C3_ratio_bounds_witness :
    0 ≤ (ratiosToPoints (1 / 2) (1 / 2) ((612 : ℤ) : ℚ) ((792 : ℤ) : ℚ)).1 ∧
    (ratiosToPoints (1 / 2) (1 / 2) ((612 : ℤ) : ℚ) ((792 : ℤ) : ℚ)).1 ≤ 612 ∧
    0 ≤ (ratiosToPoints (1 / 2) (1 / 2) ((612 : ℤ) : ℚ) ((792 : ℤ) : ℚ)).2 ∧
    (ratiosToPoints (1 / 2) (1 / 2) ((612 : ℤ) : ℚ) ((792 : ℤ) : ℚ)).2 ≤ 792 :=
  C3_ratio_bounds_amended (1 / 2) (1 / 2) 612 792 (by norm_num) (by norm_num)
    (by norm_num) (by norm_num) (by norm_num) (by norm_num)

/-- **C6**: for every page height `H > 0` and `y ∈ [0, H]`, applying the
top-left-to-render-Y conversion twice returns `y`:
`to_pdf_y (to_pdf_y y H) H = y`. -/
theorem C6_flip_flip_round_trip (y H : ℚ) (_hH : 0 < H) (h0 : 0 ≤ y)
    (h1 : y ≤ H) : to_pdf_y (to_pdf_y y H) H = y := by
  rw [to_pdf_y_eq_flip h0 h1,
    to_pdf_y_eq_flip (by linarith) (by linarith : H - y ≤ H)]
  ring

/-- Witness for C6 at `y = 3`, `H = 10`. -/
theorem C6_flip_flip_round_trip_witness :
    (0 : ℚ) < 10 ∧ (0 : ℚ) ≤ 3 ∧ (3 : ℚ) ≤ 10 ∧ to_pdf_y (to_pdf_y 3 10) 10 = 3 :=
  ⟨by norm_num, by norm_num, by norm_num,
    C6_flip_flip_round_trip 3 10 (by norm_num) (by norm_num) (by norm_num)⟩

/-- **C7**: for positive intrinsic dimensions the drawn size preserves
the aspect ratio (`w' * ih = h' * iw`), makes the longer side equal
`1.8 * 72 = 129.6` points, follows the two stated branches, and meets
the two concrete vectors `400×200 ↦ (129.6, 64.8)` and
`200×400 ↦ (64.8, 129.6)`. -/
theorem C7_image_scaling (iw ih : ℚ) (hiw : 0 < iw) (hih : 0 < ih) :
    (scaleImageSize iw ih).1 * ih = (scaleImageSize iw ih).2 * iw ∧
    max (scaleImageSize iw ih).1 (scaleImageSize iw ih).2 = 129.6 ∧
    (ih ≤ iw → scaleImageSize iw ih = (129.6, ih / iw * 129.6)) ∧
    (iw < ih → scaleImageSize iw ih = (iw / ih * 129.6, 129.6)) ∧
    scaleImageSize 400 200 = (129.6, 64.8) ∧
    scaleImageSize 200 400 = (64.8, 129.6) := by
  have h5 : scaleImageSize 400 200 = (129.6, 64.8) := by norm_num [scaleImageSize]
  have h6 : scaleImageSize 200 400 = (64.8, 129.6) := by norm_num [scaleImageSize]
  refine ⟨?_, ?_, ?_, ?_, h5, h6⟩
  · unfold scaleImageSize
    rcases le_or_lt ih iw with h | h
    · rw [if_pos h]
      field_simp
      ring
    · rw [if_neg (not_le.mpr h)]
      field_simp
      ring
  · unfold scaleImageSize
    rcases le_or_lt ih iw with h | h
    · rw [if_pos h]
      have hle : ih / iw * (1.8 * 72.0) ≤ 1.8 * 72.0 :=
        mul_le_of_le_one_left (by norm_num) (div_le_one_of_le₀ h hiw.le)
      simpa using (max_eq_left hle).trans (by norm_num)
    · rw [if_neg (not_le.mpr h)]
      have hle : iw / ih * (1.8 * 72.0) ≤ 1.8 * 72.0 :=
        mul_le_of_le_one_left (by norm_num) (div_le_one_of_le₀ h.le hih.le)
      simpa using (max_eq_right hle).trans (by norm_num)
  · intro h
    unfold scaleImageSize
    rw [if_pos h]
    norm_num
  · intro h
    unfold scaleImageSize
    rw [if_neg (not_le.mpr h)]
    norm_num

/-- Witness for C7 at the concrete source `400 × 200`. -/
theorem C7_image_scaling_witness :
    (0 : ℚ) < 400 ∧ (0 : ℚ) < 200 ∧
    ((scaleImageSize 400 200).1 * 200 = (scaleImageSize 400 200).2 * 400 ∧
      max (scaleImageSize 400 200).1 (scaleImageSize 400 200).2 = 129.6 ∧
      ((200 : ℚ) ≤ 400 → scaleImageSize 400 200 = (129.6, 200 / 400 * 129.6)) ∧
      ((400 : ℚ) < 200 → scaleImageSize 400 200 = (400 / 200 * 129.6, 129.6)) ∧
      scaleImageSize 400 200 = (129.6, 64.8) ∧
      scaleImageSize 200 400 = (64.8, 129.6)) :=
  ⟨by norm_num, by norm_num, C7_image_scaling 400 200 (by norm_num) (by norm_num)⟩

/-- **C8**: the four stated slugifier vectors. -/
theorem C8_slugify_vectors :
    slugify_filename "John Doe" = "John_Doe" ∧
    slugify_filename "" = "report" ∧
    slugify_filename "***" = "report" ∧
    slugify_filename "a/b\\c" = "abc" := by
  refine ⟨?_, ?_, ?_, ?_⟩ <;> decide

/-- **C10**: the slugifier (with its default fallback) is idempotent:
its output — a string over `[A-Za-z0-9_-]`, or the fallback `"report"`
— is a fixed point. -/
theorem C10_slugify_idempotent (s : String) :
    slugify_filename (slugify_filename s) = slugify_filename s := by
  show (⟨slugifyList (slugifyList s.data ("report".data)) ("report".data)⟩ : String)
    = ⟨slugifyList s.data ("report".data)⟩
  rw [slugifyList_idem]

/-! ## Concrete fixtures for witnesses and counterexamples -/

/-- An environment in which every external call succeeds, except that
the file `data/missing.png` does not exist. -/
def envOK : Env where
  templateOpen := true
  templateGeom := some (612, 792)
  fileExists := fun p => if p = "data/missing.png" then false else true
  imageLoad := fun _ => .ok (400, 200)
  writeOk := fun _ => true
  now := "2025-01-01 00:00:00"

/-- An environment in which the template document opens but reading its
page geometry raises. -/
def envGeomFail : Env where
  templateOpen := true
  templateGeom := none
  fileExists := fun _ => true
  imageLoad := fun _ => .ok (400, 200)
  writeOk := fun _ => true
  now := "2025-01-01 00:00:00"

/-- An environment in which opening the template document raises. -/
def envOpenFail : Env where
  templateOpen := false
  templateGeom := none
  fileExists := fun _ => true
  imageLoad := fun _ => .ok (400, 200)
  writeOk := fun _ => true
  now := "2025-01-01 00:00:00"

/-- A mapping positioning `bed_id`, `name` and `image` (a subset of the
app defaults of app.py lines 34-45). -/
def fcSample : Mapping := fun k =>
  match k with
  | .bed_id => some (182, 74)
  | .name => some (197, 170)
  | .image => some (386, 150)
  | _ => none

/-- A mapping positioning only `name`, at the app default `(197, 170)`. -/
def fcStart : Mapping := fun k =>
  match k with
  | .name => some (197, 170)
  | _ => none

/-- The mapping `fcStart` after an edit moving `name` to `(100, 100)`. -/
def fcMoved : Mapping := fun k =>
  match k with
  | .name => some (100, 100)
  | _ => none

/-- A mutation schedule: a concurrent editor overwrites the shared dict
with `fcMoved` just before the second record (index 1) is processed —
after the generator has been constructed. -/
def mutSchedule : ℕ → Option Mapping := fun i =>
  if i = 1 then some fcMoved else none

/-- A fully populated record whose image exists. -/
def recSample : PatientRecord where
  name := "John Doe"
  age := "34"
  gender := "M"
  attendees := "2"
  date_of_diagnosis := "2024-01-01"
  cancer_type := "X"
  cancer_stage := "II"
  cancer_grade := "B"
  image_path := "img.png"
  bed_id := "99"

/-- A record whose resolved image path `data/missing.png` does not
exist in `envOK`. -/
def recMissingImage : PatientRecord :=
  { recSample with name := "Jane Roe", image_path := "missing.png" }

/-- A batch of six records; the third has a nonexistent image path. -/
def recs6 : List PatientRecord :=
  [recSample, recSample, recMissingImage, recSample, recSample, recSample]

/-! ## Compositor and driver lemmas -/

theorem create_error_of_open_fail {env : Env} (h : env.templateOpen = false)
    (fc : Mapping) (pd : PatientRecord) (csv_dir : String) (i : ℕ) :
    create_patient_report env fc pd csv_dir i = .error "could not open template" := by
  simp [create_patient_report, h]

theorem create_ok {env : Env} (fc : Mapping) (pd : PatientRecord)
    (csv_dir : String) (i : ℕ) (hopen : env.templateOpen = true)
    (hgeom : env.templateGeom.isSome = true) (hw : ∀ p, env.writeOk p = true) :
    exceptOk (create_patient_report env fc pd csv_dir i) = true := by
  rcases hg : env.templateGeom with _ | ⟨W, H⟩
  · rw [hg] at hgeom
    simp at hgeom
  · simp [create_patient_report, hopen, hg, hw, exceptOk]

/-- Evaluation of a single record whose image path is nonblank but
resolves to a nonexistent file: the record succeeds and the image area
holds the `"Image not found"` placeholder. -/
theorem create_eval_missing_image {env : Env} {fc : Mapping}
    {pd : PatientRecord} {csv_dir : String} {i : ℕ} {ix iy W H : ℚ}
    (hopen : env.templateOpen = true) (hgeom : env.templateGeom = some (W, H))
    (hw : ∀ p, env.writeOk p = true)
    (himg : fc FieldId.image = some (ix, iy))
    (hrel : (⟨pyStrip pd.image_path.data⟩ : String) ≠ "")
    (hexists : env.fileExists (joinPath csv_dir ⟨pyStrip pd.image_path.data⟩) = false) :
    create_patient_report env fc pd csv_dir i = Except.ok
      ⟨joinPath "reports" (slugify_filename pd.name ++ "_report.pdf"),
        [DrawOp.setFont "Helvetica" 12]
        ++ draw_text_fields fc pd i W H
        ++ draw_image_placeholder (pymax 0 (pymin W ix)) (to_pdf_y iy H) "Image not found"
        ++ add_timestamp env W⟩ := by
  have hdpi : draw_patient_image env fc pd csv_dir W H
      = draw_image_placeholder (pymax 0 (pymin W ix)) (to_pdf_y iy H) "Image not found" := by
    simp [draw_patient_image, himg, hrel, hexists]
  simp [create_patient_report, hopen, hgeom, hw, hdpi]

theorem generateLoop_length (env : Env) (fc : Mapping) (csv_dir : String)
    (i : ℕ) (recs : List PatientRecord) :
    (generateLoop env fc csv_dir i recs).length = recs.length := by
  induction recs generalizing i with
  | nil => rfl
  | cons r rs ih => simp [generateLoop, ih]

theorem generateLoop_getElem (env : Env) (fc : Mapping) (csv_dir : String)
    (i k : ℕ) (recs : List PatientRecord) :
    (generateLoop env fc csv_dir i recs)[k]? =
      (recs[k]?).map fun r => create_patient_report env fc r csv_dir (i + k + 1) := by
  induction recs generalizing i k with
  | nil => simp [generateLoop]
  | cons r rs ih =>
    cases k with
    | zero => simp [generateLoop]
    | succ k2 =>
      rw [show i + (k2 + 1) + 1 = i + 1 + k2 + 1 by omega]
      simpa [generateLoop] using ih (i + 1) k2

theorem generateLoop_all_ok {env : Env} (fc : Mapping) (csv_dir : String)
    (hopen : env.templateOpen = true) (hgeom : env.templateGeom.isSome = true)
    (hw : ∀ p, env.writeOk p = true) (i : ℕ) (recs : List PatientRecord) :
    ∀ r ∈ generateLoop env fc csv_dir i recs, exceptOk r = true := by
  induction recs generalizing i with
  | nil => simp [generateLoop]
  | cons a t ih =>
    intro r hr
    rw [generateLoop] at hr
    rcases List.mem_cons.mp hr with h | h
    · rw [h]
      exact create_ok fc a csv_dir (i + 1) hopen hgeom hw
    · exact ih (i + 1) r h

theorem generateLoop_all_error {env : Env} (h : env.templateOpen = false)
    (fc : Mapping) (csv_dir : String) (i : ℕ) (recs : List PatientRecord) :
    generateLoop env fc csv_dir i recs
      = recs.map fun _ => Except.error "could not open template" := by
  induction recs generalizing i with
  | nil => rfl
  | cons a t ih => simp [generateLoop, create_error_of_open_fail h, ih]

theorem filter_ok_nil_of_all_error {results : List (Except String Report)}
    (h : ∀ r ∈ results, exceptOk r = false) : results.filter exceptOk = [] := by
  induction results with
  | nil => rfl
  | cons a t ih =>
    rw [List.filter_cons, h a (List.mem_cons_self a t)]
    exact ih fun r hr => h r (List.mem_cons_of_mem a hr)

theorem writtenFiles_nil_of_all_error {results : List (Except String Report)}
    (h : ∀ r ∈ results, exceptOk r = false) : writtenFiles results = [] := by
  induction results with
  | nil => rfl
  | cons a t ih =>
    have ha := h a (List.mem_cons_self a t)
    cases a with
    | ok rep => simp [exceptOk] at ha
    | error e =>
      rw [writtenFiles, List.filterMap_cons]
      exact ih fun r hr => h r (List.mem_cons_of_mem _ hr)

/-- Projection used to compare batch runs: the x-coordinate of the
first `drawString` call of a successful record's overlay. -/
def firstTextX : Except String Report → Option ℚ
  | .ok rep => rep.ops.findSome? fun op =>
      match op with
      | .text x _ _ => some x
      | _ => none
  | .error _ => none

theorem runMutated_eval :
    (generateLoopLive envOK "data" mutSchedule fcStart 0
        [recSample, recSample]).map firstTextX
      = [some (pymax 0 (pymin 612 197)), some (pymax 0 (pymin 612 100))] := rfl

theorem runSteady_eval :
    (generateLoopLive envOK "data" (fun _ => none) fcStart 0
        [recSample, recSample]).map firstTextX
      = [some (pymax 0 (pymin 612 197)), some (pymax 0 (pymin 612 197))] := rfl

/-! ## Remaining claims -/

/-- Claim C5: for every mapping that positions `bed_id`, every record
and every sequential identifier `n`, the first drawn text op is the
`bed_id` field rendered as `f"{n:02d}"` — the zero-padded (width ≥ 2)
decimal of `n` — identically for any two records, so no bed_id-like
value in the data can influence it. -/
theorem C5_bed_id_sequential (fc : Mapping) (pd pd2 : PatientRecord) (n : ℕ)
    (W H x y : ℚ) (h : fc FieldId.bed_id = some (x, y)) :
    (draw_text_fields fc pd n W H).head? =
      some (DrawOp.text (pymax 0 (pymin W x)) (to_pdf_y y H) (format02d n)) ∧
    (draw_text_fields fc pd n W H).head? = (draw_text_fields fc pd2 n W H).head? ∧
    2 ≤ (format02d n).length := by
  have hhead : ∀ q : PatientRecord, (draw_text_fields fc q n W H).head? =
      some (DrawOp.text (pymax 0 (pymin W x)) (to_pdf_y y H) (format02d n)) := by
    intro q
    simp [draw_text_fields, draw_text, h]
  have hlen : 2 ≤ (format02d n).length := by
    have he : (format02d n).length
        = (List.replicate (2 - (Nat.repr n).length) '0' ++ (Nat.repr n).data).length := rfl
    rw [List.length_append, List.length_replicate, ← string_length_data] at he
    omega
  exact ⟨hhead pd, (hhead pd).trans (hhead pd2).symm, hlen⟩

/-- Witness for C5 with the app-default `bed_id` position `(182, 74)`,
`n = 7`, and two records differing in their data. -/
theorem C5_bed_id_sequential_witness :
    fcSample FieldId.bed_id = some (182, 74) ∧
    ((draw_text_fields fcSample recSample 7 612 792).head? =
        some (DrawOp.text (pymax 0 (pymin 612 182)) (to_pdf_y 74 792) (format02d 7)) ∧
      (draw_text_fields fcSample recSample 7 612 792).head? =
        (draw_text_fields fcSample recMissingImage 7 612 792).head? ∧
      2 ≤ (format02d 7).length) :=
  ⟨rfl, C5_bed_id_sequential fcSample recSample recMissingImage 7 612 792 182 74 rfl⟩

/-- Claim C4 (counterexample): with the template document opened but its
page geometry unreadable, `create_patient_report` aborts the record with
an error — it does not substitute the US-Letter fallback and continue,
contrary to the claim that compositing never aborts on a geometry-read
failure. (The Letter fallback lives only in the editor's
`_read_template_size`.) -/
theorem C4_geometry_fallback_counterexample :
    create_patient_report envGeomFail fcSample recSample "data" 1
      = Except.error "could not read template page geometry" := rfl

/-- Claim C4 (amended): the US-Letter fallback `(612, 792)` is applied
only by the template editor's `_read_template_size`, and there it is
applied whenever the read fails — including when document opening
itself fails, not only on geometry-read failure. The compositor
(`create_patient_report`) has no fallback: a geometry-read failure
aborts that record's compositing (the batch driver then catches it
per-record). -/
theorem C4_geometry_fallback_amended (env1 env2 : Env) (fc : Mapping)
    (pd : PatientRecord) (csv_dir : String) (n : ℕ)
    (h1 : env1.templateGeom = none) (h2 : env2.templateOpen = false) :
    read_template_size env1 = (612, 792) ∧
    exceptOk (create_patient_report env1 fc pd csv_dir n) = false ∧
    read_template_size env2 = (612, 792) := by
  refine ⟨?_, ?_, ?_⟩
  · rw [read_template_size, h1]
    cases henv : env1.templateOpen <;> norm_num
  · cases ho : env1.templateOpen
    · simp [create_patient_report, ho, exceptOk]
    · simp [create_patient_report, ho, h1, exceptOk]
  · rw [read_template_size, h2]
    norm_num

/-- Witness for the amended C4: `envGeomFail` opens but has no readable
geometry; `envOpenFail` does not even open. -/
theorem C4_geometry_fallback_witness :
    envGeomFail.templateGeom = none ∧ envOpenFail.templateOpen = false ∧
    (read_template_size envGeomFail = (612, 792) ∧
      exceptOk (create_patient_report envGeomFail fcSample recSample "data" 1) = false ∧
      read_template_size envOpenFail = (612, 792)) :=
  ⟨rfl, rfl, C4_geometry_fallback_amended envGeomFail envOpenFail fcSample recSample
    "data" 1 rfl rfl⟩

/-- Claim C1 (counterexample): with an unopenable template, a batch of
three records yields 0 successes but **3** attempted records, not 0 —
the template is opened inside `create_patient_report`, which sits
inside the per-record `try/except` of the driver loop, so iteration
does begin and every record is attempted. -/
theorem C1_unopenable_template_counterexample :
    (generate_reports envOpenFail fcSample [recSample, recSample, recSample] "data").1 = 0 ∧
    (generate_reports envOpenFail fcSample [recSample, recSample, recSample] "data").2.2.length = 3 ∧
    ¬ (generate_reports envOpenFail fcSample
        [recSample, recSample, recSample] "data").2.2.length = 0 :=
  ⟨rfl, rfl, by decide⟩

/-- Claim C1 (amended): with an unopenable template the driver still
iterates over every record; each per-record attempt fails with a caught
error, so the batch ends with 0 successes out of `n` attempted records,
and no output file is written. No operation-level error is raised
before iteration. -/
theorem C1_unopenable_template_amended (env : Env) (fc : Mapping)
    (recs : List PatientRecord) (csv_dir : String)
    (h : env.templateOpen = false) :
    (generate_reports env fc recs csv_dir).1 = 0 ∧
    (generate_reports env fc recs csv_dir).2.2.length = recs.length ∧
    writtenFiles (generate_reports env fc recs csv_dir).2.2 = [] := by
  have hallerr : ∀ r ∈ generateLoop env fc csv_dir 0 recs, exceptOk r = false := by
    rw [generateLoop_all_error h fc csv_dir 0 recs]
    intro r hr
    rcases List.mem_map.mp hr with ⟨a, ha, rfl⟩
    rfl
  refine ⟨?_, ?_, ?_⟩
  · show (List.filter exceptOk (generateLoop env fc csv_dir 0 recs)).length = 0
    rw [filter_ok_nil_of_all_error hallerr]
    rfl
  · exact generateLoop_length env fc csv_dir 0 recs
  · exact writtenFiles_nil_of_all_error hallerr

/-- Witness for the amended C1 on a one-record batch. -/
theorem C1_unopenable_template_witness :
    envOpenFail.templateOpen = false ∧
    ((generate_reports envOpenFail fcSample [recSample] "data").1 = 0 ∧
      (generate_reports envOpenFail fcSample [recSample] "data").2.2.length
        = [recSample].length ∧
      writtenFiles (generate_reports envOpenFail fcSample [recSample] "data").2.2 = []) :=
  ⟨rfl, C1_unopenable_template_amended envOpenFail fcSample [recSample] "data" rfl⟩

/-- Claim C9: in a batch of six records where record `j` has a nonblank
image path resolving to a nonexistent file (and the template opens, its
geometry reads, and writes succeed), all six records succeed — the
driver reports 6 successes out of 6 — and record `j`'s report is
written with the `"Image not found"` placeholder drawn at the image
position in place of an image. -/
theorem C9_missing_image_degrades (env : Env) (fc : Mapping)
    (recs : List PatientRecord) (csv_dir : String) (j : ℕ) (rj : PatientRecord)
    (ix iy W H : ℚ)
    (hopen : env.templateOpen = true)
    (hgeom : env.templateGeom = some (W, H))
    (hw : ∀ p, env.writeOk p = true)
    (hlen : recs.length = 6)
    (hj : recs[j]? = some rj)
    (himg : fc FieldId.image = some (ix, iy))
    (hrel : (⟨pyStrip rj.image_path.data⟩ : String) ≠ "")
    (hexists : env.fileExists (joinPath csv_dir ⟨pyStrip rj.image_path.data⟩) = false) :
    (generate_reports env fc recs csv_dir).1 = 6 ∧
    (generate_reports env fc recs csv_dir).2.1 = 6 ∧
    (generate_reports env fc recs csv_dir).2.2[j]? = some (Except.ok
      ⟨joinPath "reports" (slugify_filename rj.name ++ "_report.pdf"),
        [DrawOp.setFont "Helvetica" 12]
        ++ draw_text_fields fc rj (j + 1) W H
        ++ draw_image_placeholder (pymax 0 (pymin W ix)) (to_pdf_y iy H) "Image not found"
        ++ add_timestamp env W⟩) := by
  have hsome : env.templateGeom.isSome = true := by rw [hgeom]; rfl
  refine ⟨?_, hlen, ?_⟩
  · show (List.filter exceptOk (generateLoop env fc csv_dir 0 recs)).length = 6
    rw [List.filter_eq_self.mpr (generateLoop_all_ok fc csv_dir hopen hsome hw 0 recs),
      generateLoop_length, hlen]
  · show (generateLoop env fc csv_dir 0 recs)[j]? = _
    rw [generateLoop_getElem, hj]
    simp only [Option.map_some', Nat.zero_add]
    rw [create_eval_missing_image hopen hgeom hw himg hrel hexists]

/-- Witness for C9: the concrete batch `recs6` whose third record's
image `data/missing.png` does not exist in `envOK`. -/
theorem C9_missing_image_degrades_witness :
    recs6.length = 6 ∧ recs6[2]? = some recMissingImage ∧
    envOK.fileExists (joinPath "data" ⟨pyStrip recMissingImage.image_path.data⟩) = false ∧
    ((generate_reports envOK fcSample recs6 "data").1 = 6 ∧
      (generate_reports envOK fcSample recs6 "data").2.1 = 6 ∧
      (generate_reports envOK fcSample recs6 "data").2.2[2]? = some (Except.ok
        ⟨joinPath "reports" (slugify_filename recMissingImage.name ++ "_report.pdf"),
          [DrawOp.setFont "Helvetica" 12]
          ++ draw_text_fields fcSample recMissingImage (2 + 1) 612 792
          ++ draw_image_placeholder (pymax 0 (pymin 612 386)) (to_pdf_y 150 792)
              "Image not found"
          ++ add_timestamp envOK 612⟩)) :=
  ⟨rfl, rfl, by decide,
    C9_missing_image_degrades envOK fcSample recs6 "data" 2 recMissingImage 386 150 612 792
      rfl rfl (fun _ => rfl) rfl rfl rfl (by decide) (by decide)⟩

/-- Claim C2 (counterexample): the compositor does **not** operate on an
immutable snapshot. `ReportGenerator.__init__` aliases the caller's
dict, so when a concurrent edit moves `name` from `(197, 170)` to
`(100, 100)` between records 1 and 2 — after the generator was
constructed — the run's per-record output differs from the run without
that mutation. -/
theorem C2_snapshot_counterexample :
    generateLoopLive envOK "data" mutSchedule fcStart 0 [recSample, recSample]
      ≠ generateLoopLive envOK "data" (fun _ => none) fcStart 0 [recSample, recSample] := by
  intro h
  have h2 := congrArg (List.map firstTextX) h
  rw [runMutated_eval, runSteady_eval] at h2
  simp only [List.cons.injEq, Option.some.injEq] at h2
  have h3 := h2.2.1
  norm_num [pymax, pymin] at h3

/-- Claim C2 (amended): no snapshot is taken — the generator reads the
live mapping. Record `k` of a pass is composited under exactly the
mapping contents live when it is processed (`liveMappingAt`), so
mutations after construction do change in-flight per-record output, as
the counterexample shows. -/
theorem C2_live_mapping_amended (env : Env) (csv_dir : String)
    (muts : ℕ → Option Mapping) (m : Mapping) (i k : ℕ)
    (recs : List PatientRecord) (r : PatientRecord) (hk : recs[k]? = some r) :
    (generateLoopLive env csv_dir muts m i recs)[k]? =
      some (create_patient_report env (liveMappingAt muts m i k) r csv_dir (i + k + 1)) := by
  revert hk
  induction recs generalizing m i k with
  | nil =>
    intro hk
    simp at hk
  | cons a t ih =>
    intro hk
    cases k with
    | zero =>
      rw [List.getElem?_cons_zero] at hk
      injection hk with hk
      subst hk
      simp [generateLoopLive, liveMappingAt]
    | succ k2 =>
      rw [List.getElem?_cons_succ] at hk
      rw [show i + (k2 + 1) + 1 = i + 1 + k2 + 1 by omega]
      have hrec := ih ((muts i).getD m) (i + 1) k2 hk
      simpa [generateLoopLive, liveMappingAt] using hrec

/-- Witness for the amended C2: under the schedule `mutSchedule`,
record 2 (index 1) is composited with the mutated mapping. -/
theorem C2_live_mapping_witness :
    ([recSample, recSample][1]? = some recSample) ∧
    (generateLoopLive envOK "data" mutSchedule fcStart 0 [recSample, recSample])[1]? =
      some (create_patient_report envOK (liveMappingAt mutSchedule fcStart 0 1)
        recSample "data" (0 + 1 + 1)) :=
  ⟨rfl, C2_live_mapping_amended envOK "data" mutSchedule fcStart 0 1
    [recSample, recSample] recSample rfl⟩
